import Mathlib

/-
Shallow embedding of the DRM cgroup parameter registry
(drivers/gpu/drm/drm_cgroup_helper.c, drivers/gpu/drm/drm_cgroup.c,
drivers/gpu/drm/i915/i915_cgroup.c, drivers/gpu/drm/i915/i915_cgroups.c).

Pointers are modelled by natural-number identities; the per-device hash
table becomes a list searched with the same pointer-identity comparison
(`data->cgroup == cgrp`) the C code uses — the hash only restricts the
scan to a bucket, and every entry for a given cgroup pointer lives in
that cgroup's bucket, so a full-list scan with the identity compare
visits exactly the same candidates.  Ghost fields (`recId`, `freed`)
track allocation identity and cleanup-callback invocations so that
"the identical record" and "freed exactly once" are expressible.
All helper entry points run under `hash_mutex` in the C code, so the
sequential state-passing semantics below is the linearized behavior.
-/

namespace DrmCgroup

/-- Linux errno value EINVAL; the sources return its negation. -/
def EINVAL : Int := 22

/-- Linux errno value ENOMEM; the sources return its negation. -/
def ENOMEM : Int := 12

/-- Linux errno value EPERM; the sources return its negation. -/
def EPERM : Int := 1

/-- A cgroup: `ptr` is the pointer identity used by the
`data->cgroup == cgrp` comparisons, `cgid` the integer `cgrp->id`
used as the hash key. -/
structure Cgroup where
  ptr : Nat
  cgid : Nat
deriving DecidableEq

/-- One `struct drm_cgroup_helper_data` instance, with the i915
subclass payload flattened in: `priority` is the driver-specific field
of i915's subclass (`idata->priority`); the helper core treats it
opaquely.  `recId` is a ghost allocation identity used to state that a
given instance is freed exactly once and that two calls touch the same
instance. -/
structure HelperData where
  recId : Nat
  dev : Nat
  cgroup : Nat
  cgroupId : Nat
  priority : Int
deriving DecidableEq

/-- The driver callbacks of `struct drm_cgroup_helper`
(`alloc_params` / `update_param` / `read_param`).  `update_param`
returns the C status code together with the (possibly mutated) data
structure; `read_param` returns the status code together with the
value of the out-parameter `*val` after the call (unchanged on the
paths that do not write it).  `allocPayload` is the payload content a
successful `alloc_params()` produces (i915 uses `kzalloc`, so zero). -/
structure HelperCallbacks where
  updateParam : HelperData → Nat → Int → Int × HelperData
  readParam : HelperData → Nat → Int → Int × Int
  allocPayload : Int

/-- Mutable state of `struct drm_cgroup_helper`: the hash table plus
ghost bookkeeping.  `nextId` numbers allocations; `freed` records, in
order, the `recId` of every structure handed to `remove_params` /
`kfree`; `registered` tracks the destruction-notifier subscription. -/
structure HelperState where
  table : List HelperData
  nextId : Nat
  freed : List Nat
  registered : Bool
deriving DecidableEq

/-- Replace the first list entry satisfying `p` by its image under `f`
(in-place mutation of the entry found by a `hash_for_each_possible`
scan). -/
def replaceFirst (p : HelperData → Bool) (f : HelperData → HelperData) :
    List HelperData → List HelperData
  | [] => []
  | x :: xs => if p x then f x :: xs else x :: replaceFirst p f xs

/-- The scan predicate of every helper lookup: pointer-identity
comparison `data->cgroup == cgrp`. -/
def matchesCgrp (c : Cgroup) (d : HelperData) : Bool :=
  d.cgroup == c.ptr

/-- drm_cgrp_helper_set_param (drm_cgroup_helper.c:59-108).
`installed` models the `WARN_ON(!helper)` NULL check on
`dev->cgroup_helper`; `allocOk` models whether the driver's
`alloc_params()` allocation succeeds.  Mirrors the source exactly: an
existing entry is updated in place; otherwise a new structure is
allocated, stamped with device and cgroup, added to the hash, and then
`update_param` runs — the new entry stays in the table even when that
update fails (the source comments this behavior deliberately). -/
def drm_cgrp_helper_set_param (cb : HelperCallbacks) (installed : Bool) (dev : Nat)
    (h : HelperState) (cgrp : Cgroup) (param : Nat) (val : Int) (allocOk : Bool) :
    Int × HelperState :=
  if !installed then (-EINVAL, h)
  else
    match h.table.find? (matchesCgrp cgrp) with
    | some data =>
      ((cb.updateParam data param val).1,
       { h with table := replaceFirst (matchesCgrp cgrp)
                  (fun d => (cb.updateParam d param val).2) h.table })
    | none =>
      if !allocOk then (-ENOMEM, h)
      else
        let data : HelperData :=
          { recId := h.nextId, dev := dev, cgroup := cgrp.ptr,
            cgroupId := cgrp.cgid, priority := cb.allocPayload }
        ((cb.updateParam data param val).1,
         { h with table := (cb.updateParam data param val).2 :: h.table,
                  nextId := h.nextId + 1 })

/-- drm_cgrp_helper_get_param (drm_cgroup_helper.c:130-153).  Returns
the status code together with the out-parameter `*val` after the call.
With no helper installed or no entry for the cgroup it returns
`-EINVAL` and leaves `*val` untouched; otherwise it returns whatever
the driver's `read_param` produced. -/
def drm_cgrp_helper_get_param (cb : HelperCallbacks) (installed : Bool)
    (h : HelperState) (cgrp : Cgroup) (param : Nat) (val : Int) : Int × Int :=
  if !installed then (-EINVAL, val)
  else
    match h.table.find? (matchesCgrp cgrp) with
    | some data => cb.readParam data param val
    | none => (-EINVAL, val)

/-- cgrp_destroyed (drm_cgroup_helper.c:160-192), the destruction
notifier: it scans for the first entry of the destroyed cgroup and
frees it (`remove_params` or `kfree`), then breaks.  Note that the
source performs no `hash_del`: the freed entry's node stays linked in
the table. -/
def cgrp_destroyed (h : HelperState) (cgrp : Cgroup) : HelperState :=
  match h.table.find? (matchesCgrp cgrp) with
  | some data => { h with freed := h.freed ++ [data.recId] }
  | none => h

/-- Observable steps of `drm_cgrp_helper_shutdown`, in execution
order: one `freeRec` per drained entry, and the
`blocking_notifier_chain_unregister` call. -/
inductive ShutdownEvent where
  | freeRec (recId : Nat)
  | unregister
deriving DecidableEq

/-- True exactly on the drain steps of a shutdown trace. -/
def isFreeEvent : ShutdownEvent → Bool
  | ShutdownEvent.freeRec _ => true
  | ShutdownEvent.unregister => false

/-- The `hash_for_each_safe` drain loop of shutdown: `hash_del` plus
free for every remaining entry, in table order. -/
def drainEvents : List HelperData → List ShutdownEvent
  | [] => []
  | d :: ds => ShutdownEvent.freeRec d.recId :: drainEvents ds

/-- drm_cgrp_helper_shutdown (drm_cgroup_helper.c:226-243): under the
mutex it drains (hash_del + free) every remaining entry, and only
afterwards unregisters the destruction notifier.  Returns the new
state together with the ordered event trace. -/
def drm_cgrp_helper_shutdown (h : HelperState) : HelperState × List ShutdownEvent :=
  ({ h with table := [], freed := h.freed ++ h.table.map (fun d => d.recId),
            registered := false },
   drainEvents h.table ++ [ShutdownEvent.unregister])

/-- Modelled from the spec: the single i915-supported parameter id
`I915_CGRP_DEF_CONTEXT_PRIORITY` ("i915 only supports a single cgroup
parameter"); its uapi numeric value is not under the provided tree, so
a fixed distinguished value stands in — no claim depends on the
number. -/
def I915_CGRP_DEF_CONTEXT_PRIORITY : Nat := 1

/-- Modelled from the spec: upper end of the user context-priority
range the spec calls "the user range"; numeric value from the i915
uapi convention, its header not being under the provided tree. -/
def I915_CONTEXT_MAX_USER_PRIORITY : Int := 1023

/-- Modelled from the spec: lower end of the user context-priority
range; numeric value from the i915 uapi convention, its header not
being under the provided tree. -/
def I915_CONTEXT_MIN_USER_PRIORITY : Int := -1023

/-- Modelled from the spec: upper end of "the driver's global priority
range"; numeric value from the i915 convention, its header not being
under the provided tree. -/
def I915_PRIORITY_MAX : Int := 1024

/-- Modelled from the spec: lower end of the driver's global priority
range; numeric value from the i915 convention. -/
def I915_PRIORITY_MIN : Int := -1024

/-- i915_cgrp_update_param (i915_cgroups.c:62-85): rejects any id
other than `I915_CGRP_DEF_CONTEXT_PRIORITY`, rejects values outside
the user priority range, and otherwise stores the value in the
per-cgroup structure. -/
def i915_cgrp_update_param (data : HelperData) (param : Nat) (val : Int) :
    Int × HelperData :=
  if param ≠ I915_CGRP_DEF_CONTEXT_PRIORITY then (-EINVAL, data)
  else if val > I915_CONTEXT_MAX_USER_PRIORITY ∨ val < I915_CONTEXT_MIN_USER_PRIORITY then
    (-EINVAL, data)
  else (0, { data with priority := val })

/-- i915_cgrp_read_param (i915_cgroups.c:87-105): writes the stored
priority through `*val` for the supported id, returns `-EINVAL` and
leaves `*val` alone for any other id. -/
def i915_cgrp_read_param (data : HelperData) (param : Nat) (val : Int) : Int × Int :=
  if param == I915_CGRP_DEF_CONTEXT_PRIORITY then (0, data.priority)
  else (-EINVAL, val)

/-- The i915 instantiation of the helper callbacks
(`i915_cgrp_helper` in i915_cgroups.c); `alloc_params` is a `kzalloc`,
hence zero payload. -/
def i915_cgrp_helper : HelperCallbacks :=
  { updateParam := i915_cgrp_update_param,
    readParam := i915_cgrp_read_param,
    allocPayload := 0 }

/-- struct i915_cgroup_data of i915_cgroup.c (the kref-based
iteration): one driver field, `priority_offset`. -/
structure I915CgroupData where
  priorityOffset : Int
deriving DecidableEq

/-- Modelled from the spec: the uapi id
`I915_CGROUP_PARAM_PRIORITY_OFFSET`; its numeric value is not under
the provided tree, so a fixed distinguished value stands in. -/
def I915_CGROUP_PARAM_PRIORITY_OFFSET : Nat := 1

/-- The acceptance condition of i915_cgroup_setparam_ioctl for a
priority offset (i915_cgroup.c:141-142), exactly as written:
`req->value + I915_CONTEXT_MAX_USER_PRIORITY <= I915_PRIORITY_MAX`
and `req->value - I915_CONTEXT_MIN_USER_PRIORITY >= I915_PRIORITY_MIN`. -/
def i915_prio_offset_ok (v : Int) : Bool :=
  decide (v + I915_CONTEXT_MAX_USER_PRIORITY ≤ I915_PRIORITY_MAX) &&
  decide (v - I915_CONTEXT_MIN_USER_PRIORITY ≥ I915_PRIORITY_MIN)

/-- The acceptance condition the spec states for a priority offset:
every base priority in the user range must keep `base + v` within the
driver's global priority range.  Kept separate from the source-derived
`i915_prio_offset_ok` so the two can be compared. -/
def spec_prio_offset_ok (v : Int) : Prop :=
  ∀ base : Int, I915_CONTEXT_MIN_USER_PRIORITY ≤ base →
    base ≤ I915_CONTEXT_MAX_USER_PRIORITY →
    I915_PRIORITY_MIN ≤ base + v ∧ base + v ≤ I915_PRIORITY_MAX

/-- The per-cgroup private-data store of the kref-based iterations: an
association list from cgroup pointer identity to the installed private
data (`cgroup_priv_get` / `cgroup_priv_install` under one device's
key). -/
def assocFind (st : List (Nat × α)) (c : Nat) : Option α :=
  (st.find? (fun e => e.1 == c)).map (fun e => e.2)

/-- Mutation through the shared private-data pointer: update the entry
installed for cgroup `c`. -/
def assocUpdate (st : List (Nat × α)) (c : Nat) (f : α → α) : List (Nat × α) :=
  st.map (fun e => if e.1 == c then (e.1, f e.2) else e)

/-- get_or_create_cgroup_data of i915_cgroup.c (lines 59-87): under
the device mutex, return the installed private data if present,
otherwise `kzalloc` a fresh zeroed one (failing with `-ENOMEM` when
allocation fails) and install it. -/
def i915_get_or_create_cgroup_data (st : List (Nat × I915CgroupData)) (c : Nat)
    (allocOk : Bool) : Except Int (I915CgroupData × List (Nat × I915CgroupData)) :=
  match assocFind st c with
  | some priv => Except.ok (priv, st)
  | none =>
    if !allocOk then Except.error (-ENOMEM)
    else
      let priv : I915CgroupData := { priorityOffset := 0 }
      Except.ok (priv, (c, priv) :: st)

/-- i915_cgroup_setparam_ioctl (i915_cgroup.c:100-168).  `cgrp` is the
result of `cgroup_get_from_fd` (an error code for a bad fd, passed
through); `authorized` is the value of
`capable(CAP_SYS_RESOURCE) || drm_is_current_master(file)`.  Mirrors
the source control flow exactly — in particular the unauthorized
branch jumps to `out` without assigning `ret`, which therefore stays
`0`. -/
def i915_cgroup_setparam_ioctl (st : List (Nat × I915CgroupData)) (flags : Nat)
    (cgrp : Except Int Cgroup) (authorized : Bool) (param : Nat) (value : Int)
    (allocOk : Bool) : Int × List (Nat × I915CgroupData) :=
  if flags ≠ 0 then (-EINVAL, st)
  else
    match cgrp with
    | Except.error e => (e, st)
    | Except.ok c =>
      if !authorized then (0, st)
      else
        match i915_get_or_create_cgroup_data st c.ptr allocOk with
        | Except.error e => (e, st)
        | Except.ok (_, st1) =>
          if param == I915_CGROUP_PARAM_PRIORITY_OFFSET then
            if i915_prio_offset_ok value then
              (0, assocUpdate st1 c.ptr (fun p => { p with priorityOffset := value }))
            else (-EINVAL, st1)
          else (-EINVAL, st1)

/-- struct drm_cgroup_priv of include/drm/drm_cgroup.h: the two
driver-visible fields. -/
structure DrmCgroupPriv where
  priorityOffset : Int
  displayBoost : Int
deriving DecidableEq

/-- The per-device cgroup configuration consulted by
drm_cgroup_setparam_ioctl (`dev->cgroup.*`). -/
structure DrmCgroupDevConfig where
  hasPrioOffset : Bool
  minPrioOffset : Int
  maxPrioOffset : Int
  hasDispboost : Bool
  maxDispboost : Int
  defaultDispboost : Int

/-- Modelled from the spec: the uapi id
`DRM_CGROUP_PARAM_PRIORITY_OFFSET`; numeric value not under the
provided tree. -/
def DRM_CGROUP_PARAM_PRIORITY_OFFSET : Nat := 1

/-- Modelled from the spec: the uapi id
`DRM_CGROUP_PARAM_DISPBOOST_PRIORITY`; numeric value not under the
provided tree. -/
def DRM_CGROUP_PARAM_DISPBOOST_PRIORITY : Nat := 2

/-- get_or_create_cgroup_data of drm_cgroup.c (lines 49-79): like the
i915 variant, but the fresh `kzalloc`ed private data gets its
`display_boost` field initialized to the device default. -/
def drm_get_or_create_cgroup_data (cfg : DrmCgroupDevConfig)
    (st : List (Nat × DrmCgroupPriv)) (c : Nat) (allocOk : Bool) :
    Except Int (DrmCgroupPriv × List (Nat × DrmCgroupPriv)) :=
  match assocFind st c with
  | some priv => Except.ok (priv, st)
  | none =>
    if !allocOk then Except.error (-ENOMEM)
    else
      let priv : DrmCgroupPriv :=
        { priorityOffset := 0, displayBoost := cfg.defaultDispboost }
      Except.ok (priv, (c, priv) :: st)

/-- drm_cgroup_setparam_ioctl (drm_cgroup.c:90-176).  Same shape as
the i915 variant; the priority-offset branch checks the device range
`[min_prio_offset, max_prio_offset]`, the display-boost branch checks
only the upper bound `max_dispboost`.  The unauthorized branch again
jumps to `out` with `ret` still `0`. -/
def drm_cgroup_setparam_ioctl (cfg : DrmCgroupDevConfig)
    (st : List (Nat × DrmCgroupPriv)) (flags : Nat) (cgrp : Except Int Cgroup)
    (authorized : Bool) (param : Nat) (value : Int) (allocOk : Bool) :
    Int × List (Nat × DrmCgroupPriv) :=
  if flags ≠ 0 then (-EINVAL, st)
  else
    match cgrp with
    | Except.error e => (e, st)
    | Except.ok c =>
      if !authorized then (0, st)
      else
        match drm_get_or_create_cgroup_data cfg st c.ptr allocOk with
        | Except.error e => (e, st)
        | Except.ok (_, st1) =>
          if param == DRM_CGROUP_PARAM_PRIORITY_OFFSET then
            if !cfg.hasPrioOffset then (-EINVAL, st1)
            else if value < cfg.minPrioOffset ∨ value > cfg.maxPrioOffset then
              (-EINVAL, st1)
            else
              (0, assocUpdate st1 c.ptr (fun p => { p with priorityOffset := value }))
          else if param == DRM_CGROUP_PARAM_DISPBOOST_PRIORITY then
            if !cfg.hasDispboost then (-EINVAL, st1)
            else if value > cfg.maxDispboost then (-EINVAL, st1)
            else
              (0, assocUpdate st1 c.ptr (fun p => { p with displayBoost := value }))
          else (-EINVAL, st1)

/-- drm_cgroup_get_current_prio_offset (drm_cgroup.c CGROUP_GET
expansion with default 0).  `privKey` is `dev->cgroup.priv_key`;
`getCurrent` models `cgroup_priv_get_current` for the calling
process's cgroup and is only consulted when a key exists.  Total: it
always returns a value, never an error. -/
def drm_cgroup_get_current_prio_offset (privKey : Int)
    (getCurrent : Unit → Option DrmCgroupPriv) : Int :=
  if privKey == 0 then 0
  else
    match getCurrent () with
    | some priv => priv.priorityOffset
    | none => 0

/-- drm_cgroup_get_current_dispboost (drm_cgroup.c CGROUP_GET
expansion with default `dev->cgroup.default_dispboost`). -/
def drm_cgroup_get_current_dispboost (defaultDispboost : Int) (privKey : Int)
    (getCurrent : Unit → Option DrmCgroupPriv) : Int :=
  if privKey == 0 then defaultDispboost
  else
    match getCurrent () with
    | some priv => priv.displayBoost
    | none => defaultDispboost

/-- i915_cgroup_get_current_prio_offset (i915_cgroup.c CGROUP_GET
expansion with default 0). -/
def i915_cgroup_get_current_prio_offset (privKey : Int)
    (getCurrent : Unit → Option I915CgroupData) : Int :=
  if privKey == 0 then 0
  else
    match getCurrent () with
    | some priv => priv.priorityOffset
    | none => 0

/-- Count of table entries owned by cgroup pointer `c` — the measure
behind "at most one Record per (device, group) pair". -/
def matchCount (c : Nat) (t : List HelperData) : Nat :=
  t.countP (fun d => d.cgroup == c)

/-- The ordering the spec asserts for shutdown: the notifier
unregistration precedes every free of a remaining Record, i.e. no
`freeRec` step occurs before the `unregister` step of the trace. -/
def unregisterPrecedesDrain (tr : List ShutdownEvent) : Bool :=
  ((tr.takeWhile (fun e => !(e == ShutdownEvent.unregister))).filter isFreeEvent).isEmpty

end DrmCgroup


namespace DrmCgroup

/-! Helper lemmas about the i915 update callback and `replaceFirst`. -/

/-- The i915 update callback never changes the cgroup back-reference
of the structure it mutates. -/
theorem i915_update_param_cgroup (d : HelperData) (p : Nat) (v : Int) :
    ((i915_cgrp_update_param d p v).2).cgroup = d.cgroup := by
  unfold i915_cgrp_update_param
  split
  · rfl
  · split
    · rfl
    · rfl

/-- The i915 update callback never changes the allocation identity of
the structure it mutates. -/
theorem i915_update_param_recId (d : HelperData) (p : Nat) (v : Int) :
    ((i915_cgrp_update_param d p v).2).recId = d.recId := by
  unfold i915_cgrp_update_param
  split
  · rfl
  · split
    · rfl
    · rfl

/-- When the i915 update callback fails, the failure depends only on
the parameter id and value, and every structure is left untouched. -/
theorem i915_update_param_fail_fix (d : HelperData) (p : Nat) (v : Int)
    (hfail : (i915_cgrp_update_param d p v).1 ≠ 0) (x : HelperData) :
    (i915_cgrp_update_param x p v).2 = x := by
  by_cases h1 : p ≠ I915_CGRP_DEF_CONTEXT_PRIORITY
  · simp [i915_cgrp_update_param, h1]
  · by_cases h2 : v > I915_CONTEXT_MAX_USER_PRIORITY ∨ v < I915_CONTEXT_MIN_USER_PRIORITY
    · simp [i915_cgrp_update_param, h1, h2]
    · exact absurd (by simp [i915_cgrp_update_param, h1, h2]) hfail

/-- Replacing by a function fixing every element is the identity. -/
theorem replaceFirst_id (p : HelperData → Bool) (f : HelperData → HelperData)
    (hf : ∀ x, f x = x) (t : List HelperData) : replaceFirst p f t = t := by
  induction t with
  | nil => rfl
  | cons x xs ih =>
    unfold replaceFirst
    split
    · rw [hf]
    · rw [ih]

/-- `replaceFirst` preserves the table length. -/
theorem replaceFirst_length (p : HelperData → Bool) (f : HelperData → HelperData)
    (t : List HelperData) : (replaceFirst p f t).length = t.length := by
  induction t with
  | nil => rfl
  | cons x xs ih =>
    unfold replaceFirst
    split
    · rfl
    · simp [List.length_cons, ih]

/-- If the scan finds `d` and `f` preserves the scan predicate, then
after the in-place mutation the scan finds `f d`. -/
theorem replaceFirst_find? (p : HelperData → Bool) (f : HelperData → HelperData)
    (hpf : ∀ x, p (f x) = p x) (t : List HelperData) (d : HelperData)
    (hfind : t.find? p = some d) :
    (replaceFirst p f t).find? p = some (f d) := by
  induction t with
  | nil => simp at hfind
  | cons x xs ih =>
    by_cases hx : p x = true
    · rw [List.find?_cons_of_pos _ hx] at hfind
      simp only [Option.some.injEq] at hfind
      subst hfind
      unfold replaceFirst
      rw [if_pos hx, List.find?_cons_of_pos]
      rw [hpf]
      exact hx
    · rw [List.find?_cons_of_neg _ (by simpa using hx)] at hfind
      unfold replaceFirst
      rw [if_neg hx, List.find?_cons_of_neg _ (by simpa using hx)]
      exact ih hfind

/-- In-place mutation that preserves the cgroup back-reference leaves
every per-cgroup entry count unchanged. -/
theorem replaceFirst_matchCount (c : Nat) (p : HelperData → Bool)
    (f : HelperData → HelperData) (hf : ∀ x, (f x).cgroup = x.cgroup)
    (t : List HelperData) : matchCount c (replaceFirst p f t) = matchCount c t := by
  induction t with
  | nil => rfl
  | cons x xs ih =>
    unfold replaceFirst
    split
    · unfold matchCount
      rw [List.countP_cons, List.countP_cons, hf]
    · unfold matchCount at ih ⊢
      rw [List.countP_cons, List.countP_cons, ih]

/-- A cgroup the scan does not find owns no table entry. -/
theorem matchCount_zero_of_find?_none (c : Cgroup) (t : List HelperData)
    (h : t.find? (matchesCgrp c) = none) : matchCount c.ptr t = 0 := by
  unfold matchCount
  rw [List.countP_eq_zero]
  intro a ha
  have := List.find?_eq_none.mp h a ha
  simpa [matchesCgrp] using this

/-- Every step of the shutdown drain loop is a free. -/
theorem drainEvents_all_free (t : List HelperData) :
    (drainEvents t).all isFreeEvent = true := by
  induction t with
  | nil => rfl
  | cons d ds ih =>
    unfold drainEvents
    simp [List.all_cons, isFreeEvent, ih]

end DrmCgroup

namespace DrmCgroup

/-! Claim theorems. -/

/-- C1.  Evaluation of the code at the failing input: after a record
is created for cgroup `(ptr 1, id 1)` via `drm_cgrp_helper_set_param`
and the cgroup's destruction notification is processed by
`cgrp_destroyed`, the cleanup ran once — but the entry is still found
by a subsequent `drm_cgrp_helper_get_param` (which reads the freed
structure and returns success), and the device-teardown sweep
`drm_cgrp_helper_shutdown` then frees the same allocation a second
time.  The claim's "entry is gone" and "cleanup exactly once" both
fail because `cgrp_destroyed` omits the `hash_del`. -/
theorem c1_destroyed_record_still_found_and_double_freed :
    (let h0 : HelperState := { table := [], nextId := 0, freed := [], registered := true }
     let h1 := (drm_cgrp_helper_set_param i915_cgrp_helper true 0 h0 ⟨1, 1⟩
                  I915_CGRP_DEF_CONTEXT_PRIORITY 5 true).2
     let h2 := cgrp_destroyed h1 ⟨1, 1⟩
     h2.freed = [0] ∧
     drm_cgrp_helper_get_param i915_cgrp_helper true h2 ⟨1, 1⟩
       I915_CGRP_DEF_CONTEXT_PRIORITY 77 = (0, 5) ∧
     (drm_cgrp_helper_shutdown h2).1.freed = [0, 0]) := by
  decide

/-- C2.  Evaluation of the code at the failing input: for a request
with valid flags and a valid cgroup reference whose caller is neither
`CAP_SYS_RESOURCE`-capable nor current DRM master, both setparam
ioctls return 0 (success) — not `-EPERM` — because the unauthorized
branch jumps to `out` without assigning `ret`; no record is created or
modified (the store is returned unchanged). -/
theorem c2_unauthorized_setparam_returns_success (cfg : DrmCgroupDevConfig)
    (st : List (Nat × DrmCgroupPriv)) (stI : List (Nat × I915CgroupData))
    (c : Cgroup) (param : Nat) (value : Int) (a1 a2 : Bool) :
    drm_cgroup_setparam_ioctl cfg st 0 (Except.ok c) false param value a1 = (0, st) ∧
    i915_cgroup_setparam_ioctl stI 0 (Except.ok c) false param value a2 = (0, stI) := by
  exact ⟨rfl, rfl⟩

/-- C4.  Evaluation of the code at the failing input: the i915
validator accepts the offset `-2` (and the full ioctl stores it), yet
`-2` violates the spec's condition — the base priority `-1023`
(= `I915_CONTEXT_MIN_USER_PRIORITY`) plus the offset falls below
`I915_PRIORITY_MIN`.  The source checks
`value - I915_CONTEXT_MIN_USER_PRIORITY >= I915_PRIORITY_MIN` where
the claim requires `value + I915_CONTEXT_MIN_USER_PRIORITY >=
I915_PRIORITY_MIN`. -/
theorem c4_prio_offset_validator_sign_error :
    i915_prio_offset_ok (-2) = true ∧
    i915_cgroup_setparam_ioctl [] 0 (Except.ok ⟨1, 1⟩) true
      I915_CGROUP_PARAM_PRIORITY_OFFSET (-2) true = (0, [(1, ⟨-2⟩)]) ∧
    ¬ spec_prio_offset_ok (-2) := by
  refine ⟨by decide, by decide, fun hs => ?_⟩
  have h := (hs (-1023) (by norm_num [I915_CONTEXT_MIN_USER_PRIORITY])
    (by norm_num [I915_CONTEXT_MIN_USER_PRIORITY, I915_CONTEXT_MAX_USER_PRIORITY])).1
  norm_num [I915_PRIORITY_MIN] at h

/-- C5 counterexample: on a helper state holding one record, the
shutdown trace is a free followed by the notifier unregistration, so
the claimed ordering (unregistration before the drain) is false. -/
theorem c5_drain_precedes_unregister_counterexample :
    (drm_cgrp_helper_shutdown
      { table := [{ recId := 0, dev := 0, cgroup := 1, cgroupId := 1, priority := 5 }],
        nextId := 1, freed := [], registered := true }).2 =
      [ShutdownEvent.freeRec 0, ShutdownEvent.unregister] ∧
    unregisterPrecedesDrain
      (drm_cgrp_helper_shutdown
        { table := [{ recId := 0, dev := 0, cgroup := 1, cgroupId := 1, priority := 5 }],
          nextId := 1, freed := [], registered := true }).2 = false := by
  decide

/-- C5 (amended).  In `drm_cgrp_helper_shutdown` the notifier
unregistration is the final step: every event before the last is a
free of a remaining record, and the last event is the
unregistration — i.e. unsubscribing happens after the drain, not
before it. -/
theorem c5_unregister_after_drain (h : HelperState) :
    (drm_cgrp_helper_shutdown h).2.dropLast.all isFreeEvent = true ∧
    (drm_cgrp_helper_shutdown h).2.getLast? = some ShutdownEvent.unregister := by
  unfold drm_cgrp_helper_shutdown
  constructor
  · rw [List.dropLast_concat]
    exact drainEvents_all_free h.table
  · rw [List.getLast?_concat]

/-- C7.  The current-group accessors return the documented default
when no private-data key has been set up (0 and the device's default
display boost, for any behavior of the lookup — no lookup is
consulted), and the default again when the lookup finds no record for
the calling process's cgroup; being total functions into `Int`, they
never fail. -/
theorem c7_accessor_defaults (f : Unit → Option DrmCgroupPriv)
    (g : Unit → Option I915CgroupData) (db : Int) (k : Int) :
    drm_cgroup_get_current_prio_offset 0 f = 0 ∧
    drm_cgroup_get_current_dispboost db 0 f = db ∧
    i915_cgroup_get_current_prio_offset 0 g = 0 ∧
    drm_cgroup_get_current_prio_offset k (fun _ => none) = 0 ∧
    drm_cgroup_get_current_dispboost db k (fun _ => none) = db ∧
    i915_cgroup_get_current_prio_offset k (fun _ => none) = 0 := by
  refine ⟨rfl, rfl, rfl, ?_, ?_, ?_⟩
  · unfold drm_cgroup_get_current_prio_offset
    split
    · rfl
    · rfl
  · unfold drm_cgroup_get_current_dispboost
    split
    · rfl
    · rfl
  · unfold i915_cgroup_get_current_prio_offset
    split
    · rfl
    · rfl

/-- C8.  Round trip through the i915 driver callbacks: for the
supported id and any value in the declared user priority range
(boundaries included), the update succeeds and a subsequent read
returns exactly the stored value. -/
theorem c8_update_read_roundtrip (d : HelperData) (v valIn : Int)
    (hmin : I915_CONTEXT_MIN_USER_PRIORITY ≤ v)
    (hmax : v ≤ I915_CONTEXT_MAX_USER_PRIORITY) :
    (i915_cgrp_update_param d I915_CGRP_DEF_CONTEXT_PRIORITY v).1 = 0 ∧
    i915_cgrp_read_param (i915_cgrp_update_param d I915_CGRP_DEF_CONTEXT_PRIORITY v).2
      I915_CGRP_DEF_CONTEXT_PRIORITY valIn = (0, v) := by
  have hcond : ¬(v > I915_CONTEXT_MAX_USER_PRIORITY ∨ v < I915_CONTEXT_MIN_USER_PRIORITY) := by
    push_neg
    exact ⟨hmax, hmin⟩
  constructor
  · simp [i915_cgrp_update_param, hcond]
  · simp [i915_cgrp_update_param, i915_cgrp_read_param, hcond]

/-- Witness for C8 at both declared boundary values. -/
theorem c8_update_read_roundtrip_witness :
    (((i915_cgrp_update_param
        { recId := 0, dev := 0, cgroup := 1, cgroupId := 1, priority := 0 }
        I915_CGRP_DEF_CONTEXT_PRIORITY 1023).1 = 0 ∧
      i915_cgrp_read_param
        (i915_cgrp_update_param
          { recId := 0, dev := 0, cgroup := 1, cgroupId := 1, priority := 0 }
          I915_CGRP_DEF_CONTEXT_PRIORITY 1023).2
        I915_CGRP_DEF_CONTEXT_PRIORITY 0 = (0, 1023)) ∧
     ((i915_cgrp_update_param
        { recId := 0, dev := 0, cgroup := 1, cgroupId := 1, priority := 0 }
        I915_CGRP_DEF_CONTEXT_PRIORITY (-1023)).1 = 0 ∧
      i915_cgrp_read_param
        (i915_cgrp_update_param
          { recId := 0, dev := 0, cgroup := 1, cgroupId := 1, priority := 0 }
          I915_CGRP_DEF_CONTEXT_PRIORITY (-1023)).2
        I915_CGRP_DEF_CONTEXT_PRIORITY 0 = (0, -1023))) :=
  ⟨c8_update_read_roundtrip
      { recId := 0, dev := 0, cgroup := 1, cgroupId := 1, priority := 0 }
      1023 0 (by decide) (by decide),
   c8_update_read_roundtrip
      { recId := 0, dev := 0, cgroup := 1, cgroupId := 1, priority := 0 }
      (-1023) 0 (by decide) (by decide)⟩

/-- C9.  When the table holds no record for the cgroup, the get
operation returns `-EINVAL` with the out-parameter untouched. -/
theorem c9_get_param_no_record_einval (h : HelperState) (c : Cgroup)
    (param : Nat) (valIn : Int)
    (hnone : h.table.find? (matchesCgrp c) = none) :
    drm_cgrp_helper_get_param i915_cgrp_helper true h c param valIn =
      (-EINVAL, valIn) := by
  simp [drm_cgrp_helper_get_param, hnone]

/-- Witness for C9 on the empty table. -/
theorem c9_get_param_no_record_einval_witness :
    (([] : List HelperData).find?
       (matchesCgrp (⟨1, 1⟩ : Cgroup)) = none) ∧
    drm_cgrp_helper_get_param i915_cgrp_helper true
      { table := [], nextId := 0, freed := [], registered := true } ⟨1, 1⟩
      I915_CGRP_DEF_CONTEXT_PRIORITY 5 = (-EINVAL, 5) :=
  ⟨by decide,
   c9_get_param_no_record_einval
     { table := [], nextId := 0, freed := [], registered := true } ⟨1, 1⟩
     I915_CGRP_DEF_CONTEXT_PRIORITY 5 (by decide)⟩

/-- C10.  Whenever `drm_cgrp_helper_get_param` (with the i915 read
callback) returns a nonzero status — helper absent, no record for the
cgroup, or unrecognized parameter id in the read callback — the
out-parameter is returned unchanged; it is written only on a zero
return. -/
theorem c10_get_param_error_preserves_val (installed : Bool) (h : HelperState)
    (c : Cgroup) (param : Nat) (valIn : Int)
    (herr : (drm_cgrp_helper_get_param i915_cgrp_helper installed h c param valIn).1 ≠ 0) :
    (drm_cgrp_helper_get_param i915_cgrp_helper installed h c param valIn).2 = valIn := by
  cases installed with
  | false => rfl
  | true =>
    unfold drm_cgrp_helper_get_param at herr ⊢
    cases hfind : h.table.find? (matchesCgrp c) with
    | none => simp [hfind]
    | some d =>
      simp only [hfind, Bool.not_true, if_false] at herr ⊢
      by_cases hp : param == I915_CGRP_DEF_CONTEXT_PRIORITY
      · exact absurd (by simp [i915_cgrp_helper, i915_cgrp_read_param, hp]) herr
      · simp [i915_cgrp_helper, i915_cgrp_read_param, hp]

/-- Witness for C10 with a record present but an unrecognized id. -/
theorem c10_get_param_error_preserves_val_witness :
    ((drm_cgrp_helper_get_param i915_cgrp_helper true
       { table := [{ recId := 0, dev := 0, cgroup := 1, cgroupId := 1, priority := 5 }],
         nextId := 1, freed := [], registered := true } ⟨1, 1⟩ 999 42).1 ≠ 0) ∧
    (drm_cgrp_helper_get_param i915_cgrp_helper true
      { table := [{ recId := 0, dev := 0, cgroup := 1, cgroupId := 1, priority := 5 }],
        nextId := 1, freed := [], registered := true } ⟨1, 1⟩ 999 42).2 = 42 :=
  ⟨by decide,
   c10_get_param_error_preserves_val true
     { table := [{ recId := 0, dev := 0, cgroup := 1, cgroupId := 1, priority := 5 }],
       nextId := 1, freed := [], registered := true } ⟨1, 1⟩ 999 42 (by decide)⟩

end DrmCgroup

namespace DrmCgroup

/-- C3 counterexample: with the i915 callbacks, a set-parameter call
with an unrecognized id on a group with no prior record fails with
`-EINVAL`, yet the newly allocated record remains inserted in the
table (the source comments that it allocates and associates the
structure even if setting the specific parameter fails). -/
theorem c3_failed_set_leaves_new_record :
    ((drm_cgrp_helper_set_param i915_cgrp_helper true 0
        { table := [], nextId := 0, freed := [], registered := true }
        ⟨1, 1⟩ 999 5 true).1 = -EINVAL) ∧
    (drm_cgrp_helper_set_param i915_cgrp_helper true 0
        { table := [], nextId := 0, freed := [], registered := true }
        ⟨1, 1⟩ 999 5 true).2.table =
      [{ recId := 0, dev := 0, cgroup := 1, cgroupId := 1, priority := 0 }] := by
  decide

/-- C3 (amended).  A failed set-parameter call records no parameter
value and frees nothing: either the registry state is completely
unchanged (helper absent, allocation failure, or failed update of a
pre-existing record, which the i915 callback leaves untouched), or —
when the group had no record and allocation succeeded — the only
change is that the freshly allocated zero-initialized record now sits
in the table, unmodified by the failed update. -/
theorem c3_failed_set_no_partial_update (installed : Bool) (dev : Nat)
    (h : HelperState) (c : Cgroup) (param : Nat) (v : Int) (allocOk : Bool)
    (hfail :
      (drm_cgrp_helper_set_param i915_cgrp_helper installed dev h c param v allocOk).1 ≠ 0) :
    (drm_cgrp_helper_set_param i915_cgrp_helper installed dev h c param v allocOk).2 = h ∨
    (h.table.find? (matchesCgrp c) = none ∧
     (drm_cgrp_helper_set_param i915_cgrp_helper installed dev h c param v allocOk).2.table =
       { recId := h.nextId, dev := dev, cgroup := c.ptr, cgroupId := c.cgid,
         priority := 0 } :: h.table ∧
     (drm_cgrp_helper_set_param i915_cgrp_helper installed dev h c param v allocOk).2.freed =
       h.freed) := by
  cases installed with
  | false => exact Or.inl rfl
  | true =>
    cases hfind : h.table.find? (matchesCgrp c) with
    | some d =>
      left
      have hfaild : (i915_cgrp_update_param d param v).1 ≠ 0 := by
        simpa [drm_cgrp_helper_set_param, hfind, i915_cgrp_helper] using hfail
      have htab : replaceFirst (matchesCgrp c)
          (fun x => (i915_cgrp_helper.updateParam x param v).2) h.table = h.table :=
        replaceFirst_id _ _ (i915_update_param_fail_fix d param v hfaild) h.table
      simp [drm_cgrp_helper_set_param, hfind, htab]
    | none =>
      cases allocOk with
      | false =>
        left
        simp [drm_cgrp_helper_set_param, hfind]
      | true =>
        right
        have hfailf : (i915_cgrp_update_param
            { recId := h.nextId, dev := dev, cgroup := c.ptr, cgroupId := c.cgid,
              priority := 0 } param v).1 ≠ 0 := by
          simpa [drm_cgrp_helper_set_param, hfind, i915_cgrp_helper] using hfail
        refine ⟨rfl, ?_, ?_⟩
        · simp [drm_cgrp_helper_set_param, hfind, i915_cgrp_helper,
            i915_update_param_fail_fix _ param v hfailf]
        · simp [drm_cgrp_helper_set_param, hfind]

end DrmCgroup

namespace DrmCgroup

/-- Witness for the amended C3: unrecognized id on an empty table. -/
theorem c3_failed_set_no_partial_update_witness :
    ((drm_cgrp_helper_set_param i915_cgrp_helper true 0
        { table := [], nextId := 0, freed := [], registered := true }
        ⟨1, 1⟩ 999 5 true).1 ≠ 0) ∧
    ((drm_cgrp_helper_set_param i915_cgrp_helper true 0
        { table := [], nextId := 0, freed := [], registered := true }
        ⟨1, 1⟩ 999 5 true).2 =
      { table := [], nextId := 0, freed := [], registered := true } ∨
     ((({ table := [], nextId := 0, freed := [], registered := true } : HelperState)).table.find?
        (matchesCgrp ⟨1, 1⟩) = none ∧
      (drm_cgrp_helper_set_param i915_cgrp_helper true 0
        { table := [], nextId := 0, freed := [], registered := true }
        ⟨1, 1⟩ 999 5 true).2.table =
        { recId := 0, dev := 0, cgroup := 1, cgroupId := 1, priority := 0 } :: [] ∧
      (drm_cgrp_helper_set_param i915_cgrp_helper true 0
        { table := [], nextId := 0, freed := [], registered := true }
        ⟨1, 1⟩ 999 5 true).2.freed = [])) :=
  ⟨by decide,
   c3_failed_set_no_partial_update true 0
     { table := [], nextId := 0, freed := [], registered := true }
     ⟨1, 1⟩ 999 5 true (by decide)⟩

end DrmCgroup

namespace DrmCgroup

/-- A set-parameter call that finds an existing record updates that
identical record in place and allocates nothing: the allocation
counter and the table length are unchanged, the scan afterwards finds
the updated image of the same structure, and no per-cgroup entry count
changes. -/
theorem i915_set_param_found (dev : Nat) (h : HelperState) (c : Cgroup)
    (param : Nat) (v : Int) (a : Bool) (d : HelperData)
    (hf : h.table.find? (matchesCgrp c) = some d) :
    (drm_cgrp_helper_set_param i915_cgrp_helper true dev h c param v a).2.nextId =
      h.nextId ∧
    (drm_cgrp_helper_set_param i915_cgrp_helper true dev h c param v a).2.table.length =
      h.table.length ∧
    (drm_cgrp_helper_set_param i915_cgrp_helper true dev h c param v a).2.table.find?
      (matchesCgrp c) = some ((i915_cgrp_update_param d param v).2) ∧
    (∀ c' : Nat,
      matchCount c'
        (drm_cgrp_helper_set_param i915_cgrp_helper true dev h c param v a).2.table =
      matchCount c' h.table) := by
  refine ⟨?_, ?_, ?_, ?_⟩
  · simp [drm_cgrp_helper_set_param, hf]
  · simp [drm_cgrp_helper_set_param, hf, replaceFirst_length]
  · simp only [drm_cgrp_helper_set_param, hf]
    simp only [Bool.not_true, Bool.false_eq_true, if_false]
    exact replaceFirst_find? (matchesCgrp c) _
      (fun x => by
        simp only [i915_cgrp_helper]
        unfold matchesCgrp
        rw [i915_update_param_cgroup x param v]) h.table d hf
  · intro c'
    simp only [drm_cgrp_helper_set_param, hf]
    simp only [Bool.not_true, Bool.false_eq_true, if_false]
    exact replaceFirst_matchCount c' (matchesCgrp c) _
      (fun x => by
        simp only [i915_cgrp_helper]
        exact i915_update_param_cgroup x param v) h.table

/-- A set-parameter call that finds no record allocates exactly one
fresh structure for the cgroup and pushes its updated image onto the
table. -/
theorem i915_set_param_fresh (dev : Nat) (h : HelperState) (c : Cgroup)
    (param : Nat) (v : Int)
    (hf : h.table.find? (matchesCgrp c) = none) :
    (drm_cgrp_helper_set_param i915_cgrp_helper true dev h c param v true).2.table =
      (i915_cgrp_update_param
        { recId := h.nextId, dev := dev, cgroup := c.ptr, cgroupId := c.cgid,
          priority := 0 } param v).2 :: h.table ∧
    (drm_cgrp_helper_set_param i915_cgrp_helper true dev h c param v true).2.nextId =
      h.nextId + 1 := by
  constructor
  · simp [drm_cgrp_helper_set_param, hf, i915_cgrp_helper]
  · simp [drm_cgrp_helper_set_param, hf]

end DrmCgroup

namespace DrmCgroup

/-- C6.  At most one record per (device, group) pair: a set-parameter
call preserves "at most one entry per cgroup" (and a first call on a
record-less group creates exactly one); after a first call, the table
holds an entry for the group, and the immediately following call on
the same pair allocates nothing (allocation counter and table length
unchanged) and operates on the identical record (same allocation
identity).  Likewise, once `get_or_create_cgroup_data` of drm_cgroup.c
has produced a private-data record, a repeated call returns that
identical record with the store unchanged. -/
theorem c6_unique_record_per_cgroup (dev : Nat) (h : HelperState) (c : Cgroup)
    (param param' : Nat) (v v' : Int) (a2 : Bool) (c' : Nat)
    (cfg : DrmCgroupDevConfig) (st st1 : List (Nat × DrmCgroupPriv))
    (p1 : DrmCgroupPriv) (a3 : Bool)
    (hinv : matchCount c' h.table ≤ 1)
    (hgoc : drm_get_or_create_cgroup_data cfg st c.ptr true = Except.ok (p1, st1)) :
    matchCount c'
      (drm_cgrp_helper_set_param i915_cgrp_helper true dev h c param v true).2.table ≤ 1 ∧
    ((drm_cgrp_helper_set_param i915_cgrp_helper true dev h c param v true).2.table.find?
      (matchesCgrp c)).isSome = true ∧
    (drm_cgrp_helper_set_param i915_cgrp_helper true dev
      (drm_cgrp_helper_set_param i915_cgrp_helper true dev h c param v true).2
      c param' v' a2).2.nextId =
      (drm_cgrp_helper_set_param i915_cgrp_helper true dev h c param v true).2.nextId ∧
    (drm_cgrp_helper_set_param i915_cgrp_helper true dev
      (drm_cgrp_helper_set_param i915_cgrp_helper true dev h c param v true).2
      c param' v' a2).2.table.length =
      (drm_cgrp_helper_set_param i915_cgrp_helper true dev h c param v true).2.table.length ∧
    ((drm_cgrp_helper_set_param i915_cgrp_helper true dev
      (drm_cgrp_helper_set_param i915_cgrp_helper true dev h c param v true).2
      c param' v' a2).2.table.find? (matchesCgrp c)).map (fun d => d.recId) =
      ((drm_cgrp_helper_set_param i915_cgrp_helper true dev h c param v true).2.table.find?
        (matchesCgrp c)).map (fun d => d.recId) ∧
    drm_get_or_create_cgroup_data cfg st1 c.ptr a3 = Except.ok (p1, st1) := by
  have hgoc2 : drm_get_or_create_cgroup_data cfg st1 c.ptr a3 = Except.ok (p1, st1) := by
    unfold drm_get_or_create_cgroup_data at hgoc ⊢
    cases hA : assocFind st c.ptr with
    | some priv =>
      rw [hA] at hgoc
      simp only [Except.ok.injEq, Prod.mk.injEq] at hgoc
      obtain ⟨h1, h2⟩ := hgoc
      subst h1
      subst h2
      rw [hA]
    | none =>
      rw [hA] at hgoc
      simp only [Bool.not_true, Bool.false_eq_true, if_false, Except.ok.injEq,
        Prod.mk.injEq] at hgoc
      obtain ⟨h1, h2⟩ := hgoc
      subst h1
      subst h2
      simp [assocFind]
  cases hfind : h.table.find? (matchesCgrp c) with
  | some d =>
    obtain ⟨hn1, hl1, hf1, hm1⟩ := i915_set_param_found dev h c param v true d hfind
    obtain ⟨hn2, hl2, hf2, hm2⟩ := i915_set_param_found dev _ c param' v' a2 _ hf1
    refine ⟨?_, ?_, hn2, hl2, ?_, hgoc2⟩
    · rw [hm1 c']
      exact hinv
    · rw [hf1]
      rfl
    · rw [hf2, hf1]
      simp [i915_update_param_recId]
  | none =>
    obtain ⟨htab1, hnext1⟩ := i915_set_param_fresh dev h c param v hfind
    have hu : matchesCgrp c
        ((i915_cgrp_update_param
          { recId := h.nextId, dev := dev, cgroup := c.ptr, cgroupId := c.cgid,
            priority := 0 } param v).2) = true := by
      unfold matchesCgrp
      rw [i915_update_param_cgroup]
      simp
    have hf1 : (drm_cgrp_helper_set_param i915_cgrp_helper true dev h c param v
        true).2.table.find? (matchesCgrp c) =
        some ((i915_cgrp_update_param
          { recId := h.nextId, dev := dev, cgroup := c.ptr, cgroupId := c.cgid,
            priority := 0 } param v).2) := by
      rw [htab1]
      exact List.find?_cons_of_pos _ hu
    obtain ⟨hn2, hl2, hf2, hm2⟩ := i915_set_param_found dev _ c param' v' a2 _ hf1
    refine ⟨?_, ?_, hn2, hl2, ?_, hgoc2⟩
    · rw [htab1]
      unfold matchCount
      rw [List.countP_cons]
      by_cases hcc : ((i915_cgrp_update_param
          { recId := h.nextId, dev := dev, cgroup := c.ptr, cgroupId := c.cgid,
            priority := 0 } param v).2.cgroup == c') = true
      · have hceq : c.ptr = c' := by
          rw [i915_update_param_cgroup] at hcc
          simpa using hcc
        have hzero : matchCount c' h.table = 0 := by
          rw [← hceq]
          exact matchCount_zero_of_find?_none c h.table hfind
        unfold matchCount at hzero
        rw [hzero, hcc]
        simp
      · rw [if_neg hcc]
        unfold matchCount at hinv
        simpa using hinv
    · rw [hf1]
      rfl
    · rw [hf2, hf1]
      simp [i915_update_param_recId]

end DrmCgroup

namespace DrmCgroup

/-- Witness for C6: two consecutive set-parameter calls on the same
cgroup starting from the empty table, and a repeated
`get_or_create_cgroup_data` after a first creating call. -/
theorem c6_unique_record_per_cgroup_witness :
    (matchCount 1
      (({ table := [], nextId := 0, freed := [], registered := true } :
        HelperState)).table ≤ 1) ∧
    (drm_get_or_create_cgroup_data (⟨true, 0, 0, true, 0, 0⟩ : DrmCgroupDevConfig)
      [] 1 true =
      Except.ok (⟨0, 0⟩, [(1, (⟨0, 0⟩ : DrmCgroupPriv))])) ∧
    (matchCount 1
      (drm_cgrp_helper_set_param i915_cgrp_helper true 0
        { table := [], nextId := 0, freed := [], registered := true }
        ⟨1, 1⟩ 1 5 true).2.table ≤ 1 ∧
    ((drm_cgrp_helper_set_param i915_cgrp_helper true 0
        { table := [], nextId := 0, freed := [], registered := true }
        ⟨1, 1⟩ 1 5 true).2.table.find? (matchesCgrp ⟨1, 1⟩)).isSome = true ∧
    (drm_cgrp_helper_set_param i915_cgrp_helper true 0
      (drm_cgrp_helper_set_param i915_cgrp_helper true 0
        { table := [], nextId := 0, freed := [], registered := true }
        ⟨1, 1⟩ 1 5 true).2
      ⟨1, 1⟩ 1 7 true).2.nextId =
      (drm_cgrp_helper_set_param i915_cgrp_helper true 0
        { table := [], nextId := 0, freed := [], registered := true }
        ⟨1, 1⟩ 1 5 true).2.nextId ∧
    (drm_cgrp_helper_set_param i915_cgrp_helper true 0
      (drm_cgrp_helper_set_param i915_cgrp_helper true 0
        { table := [], nextId := 0, freed := [], registered := true }
        ⟨1, 1⟩ 1 5 true).2
      ⟨1, 1⟩ 1 7 true).2.table.length =
      (drm_cgrp_helper_set_param i915_cgrp_helper true 0
        { table := [], nextId := 0, freed := [], registered := true }
        ⟨1, 1⟩ 1 5 true).2.table.length ∧
    ((drm_cgrp_helper_set_param i915_cgrp_helper true 0
      (drm_cgrp_helper_set_param i915_cgrp_helper true 0
        { table := [], nextId := 0, freed := [], registered := true }
        ⟨1, 1⟩ 1 5 true).2
      ⟨1, 1⟩ 1 7 true).2.table.find? (matchesCgrp ⟨1, 1⟩)).map (fun d => d.recId) =
      ((drm_cgrp_helper_set_param i915_cgrp_helper true 0
        { table := [], nextId := 0, freed := [], registered := true }
        ⟨1, 1⟩ 1 5 true).2.table.find? (matchesCgrp ⟨1, 1⟩)).map (fun d => d.recId) ∧
    drm_get_or_create_cgroup_data (⟨true, 0, 0, true, 0, 0⟩ : DrmCgroupDevConfig)
      [(1, (⟨0, 0⟩ : DrmCgroupPriv))] 1 true =
      Except.ok (⟨0, 0⟩, [(1, (⟨0, 0⟩ : DrmCgroupPriv))])) :=
  ⟨by decide, rfl,
   c6_unique_record_per_cgroup 0
     { table := [], nextId := 0, freed := [], registered := true }
     ⟨1, 1⟩ 1 1 5 7 true 1 ⟨true, 0, 0, true, 0, 0⟩ [] [(1, ⟨0, 0⟩)] ⟨0, 0⟩ true
     (by decide) rfl⟩

end DrmCgroup
